import Mathlib

/-!
Verification of `IPython/config/application.py` (the `Application` class and
the `boolean_flag` helper) against its natural-language specification.

The Python code is shallowly embedded: the mutable singleton state becomes an
explicit `AppState` record, statements become state-passing functions, raised
exceptions become `Except String`, and the side effects of
`parse_command_line` (printing, exiting, loading) become an explicit event
trace.  Collaborators that live outside the source file under review
(the traits machinery, `Config._merge`) are either taken as parameters or
modelled from the spec, and are marked as such in their doc comments.
-/

namespace Traitlets

/-- A configuration value stored at a `Component.setting` leaf. -/
inductive CVal
  | vBool (b : Bool)
  | vInt (n : Int)
  | vStr (s : String)
deriving DecidableEq, Repr

/-- A configuration tree (`Config` in the source): a mapping from component
name to a mapping from setting name to value, embedded as association
lists. -/
abbrev Config : Type := List (String × List (String × CVal))

/-- `copy.deepcopy` on a `CVal`: a structural copy, which on pure values is
the identity. -/
def deepcopyCVal : CVal → CVal
  | .vBool b => .vBool b
  | .vInt n => .vInt n
  | .vStr s => .vStr s

/-- `copy.deepcopy` on a `Config` tree: copies every node. -/
def deepcopyConfig (c : Config) : Config :=
  c.map (fun p => (p.1, p.2.map (fun q => (q.1, deepcopyCVal q.2))))

theorem deepcopyCVal_eq (v : CVal) : deepcopyCVal v = v := by
  cases v <;> rfl

theorem deepcopyConfig_eq (c : Config) : deepcopyConfig c = c := by
  unfold deepcopyConfig
  induction c with
  | nil => rfl
  | cons p rest ih =>
      simp only [List.map_cons, ih, List.cons.injEq, and_true]
      have hinner : List.map (fun q => (q.1, deepcopyCVal q.2)) p.2 = p.2 := by
        induction p.2 with
        | nil => rfl
        | cons q qs ihq => simp [List.map_cons, deepcopyCVal_eq, ihq]
      simp [hinner]

/-- The type of `Config._merge` (defined in `IPython/config/loader.py`,
outside the file under review): it merges an incoming fragment into a config
tree and may raise.  `update_config` is verified for every such function. -/
def MergeFn : Type := Config → Config → Except String Config

/-- A Python value, as far as the flag-table validation in
`Application.__init__` inspects one: ints, strings, booleans, dicts
(`Config` instances are dicts too, so one constructor covers the
`isinstance(value[0], (dict, Config))` test) and tuples. -/
inductive PyVal
  | pyInt (n : Int)
  | pyStr (s : String)
  | pyBool (b : Bool)
  | pyDict (entries : List (String × PyVal))
  | pyTuple (items : List PyVal)

/-- `isinstance(v, (dict, Config))`. -/
def PyVal.isMapping : PyVal → Bool
  | .pyDict _ => true
  | _ => false

/-- `isinstance(v, basestring)`. -/
def PyVal.isText : PyVal → Bool
  | .pyStr _ => true
  | _ => false

/-- An exposed component (`Configurable` subclass): its `__name__` and, via
the trait-registry collaborator, the names of its `config=True` traits.
The registry itself (`class_traits`) lives outside the file under review;
per the spec it exposes each externally-configurable setting read-only. -/
structure ClassSpec where
  name : String
  configTraits : List String
deriving DecidableEq, Repr

/-- The mutable state of an `Application` instance that the verified methods
touch: the canonical config tree, the exposed-component list, the alias and
flag tables, and the trait `log_level` together with the level of the
attached logger. -/
structure AppState where
  config : Config
  classes : List ClassSpec
  aliases : List (String × String)
  flags : List (String × PyVal)
  log_level : Int
  loggerLevel : Int

/-- `Application.update_config(config)`, embedded with explicit state
passing.  The source reads:
`newconfig = deepcopy(self.config)`;
`newconfig._merge(config)`;
`self.config = newconfig`.
A raise inside `_merge` propagates before the assignment to `self.config`
runs, so the pair returned is (state after the call, outcome). -/
def update_config (merge : MergeFn) (st : AppState) (incoming : Config) :
    AppState × Except String Unit :=
  let newconfig := deepcopyConfig st.config
  match merge newconfig incoming with
  | .error e => (st, .error e)
  | .ok merged => ({ st with config := merged }, .ok ())

/-- The three `assert` statements run on one flag-table value in
`Application.__init__`:
`len(value) == 2`, `isinstance(value[0], (dict, Config))`,
`isinstance(value[1], basestring)`. -/
def checkFlagEntry (v : PyVal) : Bool :=
  match v with
  | .pyTuple [a, b] => a.isMapping && b.isText
  | _ => false

/-- The flag-validation loop of `Application.__init__`: every entry of
`self.flags` must pass `checkFlagEntry`. -/
def checkFlags (flags : List (String × PyVal)) : Bool :=
  flags.all (fun kv => checkFlagEntry kv.2)

/-- The flag-entry invariant as the spec words it: the first element a
mapping of mappings and the second non-empty text.  Written from the spec,
to be compared with `checkFlagEntry`, which is written from the source. -/
def specFlagEntryValid (v : PyVal) : Bool :=
  match v with
  | .pyTuple [.pyDict entries, .pyStr s] =>
      entries.all (fun kv => kv.2.isMapping) && !(s = "")
  | _ => false

/-- `Application.init_logging`: attaches a logger and sets its level to the
current value of the `log_level` trait
(`self.log.setLevel(self.log_level)`). -/
def init_logging (st : AppState) : AppState :=
  { st with loggerLevel := st.log_level }

/-- `Application.__init__`: inserts the application's own class at index 0
of `self.classes`, runs the flag-table asserts (an `AssertionError` raise
is the error case), then calls `init_logging`. -/
def app_init (myClass : ClassSpec) (st : AppState) : Except String AppState :=
  let st1 := { st with classes := myClass :: st.classes }
  if checkFlags st1.flags then .ok (init_logging st1)
  else .error "AssertionError"

/-- Python `s.split(sep)` restricted to the one-character separator the
source uses, on the character list of the string. -/
def splitSepAux (sep : Char) : List Char → List Char → List (List Char)
  | [], acc => [acc.reverse]
  | c :: rest, acc =>
      if c = sep then acc.reverse :: splitSepAux sep rest []
      else splitSepAux sep rest (c :: acc)

/-- Python `s.split(sep)` for a one-character separator. -/
def pySplit (sep : Char) (s : String) : List String :=
  (splitSepAux sep s.data []).map (fun l => String.mk l)

/-- Python `s.split(sep, 1)` for a one-character separator, returning
`none` when the separator does not occur (so that a two-name unpack raises
`ValueError`). -/
def splitFirstAux (sep : Char) : List Char → List Char → Option (String × String)
  | [], _ => none
  | c :: rest, acc =>
      if c = sep then some (String.mk acc.reverse, String.mk rest)
      else splitFirstAux sep rest (c :: acc)

/-- Python `longname.split(sep, 1)` unpacked into exactly two names. -/
def pySplitFirst (sep : Char) (s : String) : Option (String × String) :=
  splitFirstAux sep s.data []

/-- The separator character used by the source's `split` calls. -/
def dotChar : Char := Char.ofNat 46

/-- The `classdict` built by `print_alias_help`: dict assignment in
iteration order, so of two classes with the same `__name__` the later one
wins. -/
def lookupClass (classes : List ClassSpec) (n : String) : Option ClassSpec :=
  classes.reverse.find? (fun c => c.name = n)

/-- The dereference `print_alias_help` performs for one alias value:
`classname, traitname = longname.split('.', 1)` (a `ValueError` if there is
no dot), `cls = classdict[classname]` (a `KeyError` if the class is not
exposed), `trait = cls.class_traits(config=True)[traitname]` (a `KeyError`
if the setting is not configurable on that class). -/
def aliasDeref (classes : List ClassSpec) (longname : String) :
    Except String Unit :=
  match pySplitFirst dotChar longname with
  | none => .error ("ValueError: " ++ longname)
  | some (classname, traitname) =>
      match lookupClass classes classname with
      | none => .error ("KeyError: " ++ classname)
      | some cls =>
          if traitname ∈ cls.configTraits then .ok ()
          else .error ("KeyError: " ++ traitname)

/-- The alias loop of `Application.print_alias_help`: dereferences every
alias value in turn; the first failing dereference raises.  (The early
return on an empty alias table and the rendering of the help lines, which
is delegated, do not affect whether a lookup raises.) -/
def print_alias_help (classes : List ClassSpec) :
    List (String × String) → Except String Unit
  | [] => .ok ()
  | (_, longname) :: rest =>
      match aliasDeref classes longname with
      | .error e => .error e
      | .ok _ => print_alias_help classes rest

/-- An observable action of `Application.parse_command_line`: the prints,
the `self.exit(status)` call (which calls `sys.exit` and terminates), the
construction of the `KeyValueConfigLoader` together with its
`load_config()` call, and the `update_config` call. -/
inductive Event
  | printDescriptionEv
  | printHelpEv (helpAll : Bool)
  | printVersionEv
  | exitEv (status : Nat)
  | loadConfigEv
  | updateConfigEv
deriving DecidableEq, Repr

/-- `Application.parse_command_line(argv)` as the trace of its observable
actions.  The source tests membership of the help tokens first, then of
`--version`; `self.exit(0)` raises `SystemExit`, so nothing after it runs.
Otherwise a `KeyValueConfigLoader` is built, `load_config()` produces a
fragment, and `update_config` merges it. -/
def parse_command_line (argv : List String) : List Event :=
  if argv.contains "-h" || argv.contains "--help" || argv.contains "--help-all" then
    [.printDescriptionEv, .printHelpEv (argv.contains "--help-all"), .exitEv 0]
  else if argv.contains "--version" then
    [.printVersionEv, .exitEv 0]
  else
    [.loadConfigEv, .updateConfigEv]

/-- The values admitted by the `log_level` trait declaration
`Enum((0,10,20,30,40,50), ...)`. -/
def logLevelValues : List Int := [0, 10, 20, 30, 40, 50]

/-- `logging.WARN`, the declared `default_value` of `log_level`. -/
def loggingWARN : Int := 30

/-- The `default_value=logging.WARN` argument of the `log_level`
declaration. -/
def log_level_default : Int := loggingWARN

/-- Modelled from the spec: validation of an assignment to the `log_level`
trait.  The `Enum` trait type is imported from `IPython.utils.traitlets`,
which is not part of the file under review; per the spec each trait carries
a type/validator and invalid assignments are rejected.  The admitted values
are the tuple from the source's trait declaration. -/
def validateLogLevel (v : Int) : Except String Int :=
  if v ∈ logLevelValues then .ok v else .error "TraitError"

/-- `Application._log_level_changed(name, old, new)`:
`self.log.setLevel(new)`. -/
def log_level_changed (st : AppState) (new : Int) : AppState :=
  { st with loggerLevel := new }

/-- Modelled from the spec: assignment to the `log_level` trait with change
notification.  The dispatch machinery (`HasTraits` calling the static
handler `_<name>_changed` exactly once when the value actually changes)
lives outside the file under review; per the spec a swap "raises change
notifications for every setting whose resolved value differs from its prior
value".  The handler invoked is `log_level_changed`, from the source.  The
returned `Nat` counts handler invocations. -/
def set_log_level (st : AppState) (v : Int) :
    Except String (AppState × Nat) :=
  match validateLogLevel v with
  | .error e => .error e
  | .ok v2 =>
      if v2 = st.log_level then .ok (st, 0)
      else
        let st2 := { st with log_level := v2 }
        .ok (log_level_changed st2 v2, 1)

/-- `boolean_flag(name, configurable, set_help, unset_help)`.  Python's
`set_help or default` falls back to the default string exactly when
`set_help` is empty; `cls, trait = configurable.split('.')` raises
`ValueError` unless the split has exactly two parts; the result is a dict
with the keys `name` and `'no-' + name`, mapped to (one-setting config
patch, help text) pairs. -/
def boolean_flag (name configurable set_help unset_help : String) :
    Except String (List (String × Config × String)) :=
  let sh := if set_help = "" then "set " ++ configurable ++ "=True" else set_help
  let uh := if unset_help = "" then "set " ++ configurable ++ "=False" else unset_help
  match pySplit dotChar configurable with
  | [cls, trait] =>
      let setter : Config := [(cls, [(trait, .vBool true)])]
      let unsetter : Config := [(cls, [(trait, .vBool false)])]
      .ok [(name, (setter, sh)), ("no-" ++ name, (unsetter, uh))]
  | _ => .error "ValueError"

/-! Concrete fixtures used by witnesses and counterexamples. -/

/-- The `Application` class itself, whose only `config=True` trait is
`log_level`. -/
def appClassW : ClassSpec := { name := "Application", configTraits := ["log_level"] }

/-- A freshly constructed state with the source's defaults: empty config,
no extra classes, empty alias and flag tables, `log_level` at its declared
default. -/
def emptyState : AppState :=
  { config := [], classes := [], aliases := [], flags := [],
    log_level := 30, loggerLevel := 0 }

/-- A flag-table value whose patch is a dict but not a mapping of mappings
and whose help text is empty. -/
def badFlagEntry : PyVal := .pyTuple [.pyDict [("a", .pyInt 1)], .pyStr ""]

/-- A state carrying `badFlagEntry` in its flag table. -/
def stBadFlags : AppState := { emptyState with flags := [("f", badFlagEntry)] }

/-- A state whose alias table points at a component that is not exposed. -/
def stBadAlias : AppState :=
  { emptyState with aliases := [("foo", "Missing.trait")] }

/-- A merge function that always raises. -/
def mergeFailW : MergeFn := fun _ _ => .error "merge failed"

/-- A simple concrete merge function that succeeds. -/
def mergeConcatW : MergeFn := fun a b => .ok (a ++ b)

/-- A one-component canonical config. -/
def cfgW : Config := [("X", [("n", .vInt 1)])]

/-- A one-component incoming fragment. -/
def fragW : Config := [("X", [("n", .vInt 2)])]

/-- A state whose canonical config is `cfgW`. -/
def stW : AppState := { emptyState with config := cfgW }

/-- A state whose `log_level` trait and logger level agree at the
default. -/
def stLogW : AppState := { emptyState with log_level := 30, loggerLevel := 30 }

/-- `stLogW` after assigning `log_level = 10`. -/
def stAfterW : AppState := { emptyState with log_level := 10, loggerLevel := 10 }

/-- `emptyState` after `Application.__init__` with `appClassW`. -/
def stInitW : AppState :=
  { emptyState with classes := [appClassW], loggerLevel := 30 }

/-! Theorems settling the claims. -/

/-- C1: `Application.update_config(F)` first deep-copies the canonical
config `C` (a copy whose value equals `C`), merges `F` into the copy, and
only then rebinds `self.config` to the merged copy; if the merge step
raises, the state, and `self.config` in particular, is exactly the prior
one. -/
theorem update_config_atomic (m : MergeFn) (st : AppState) (f : Config) :
    deepcopyConfig st.config = st.config ∧
    (∀ e, m (deepcopyConfig st.config) f = .error e →
      update_config m st f = (st, .error e)) ∧
    (∀ merged, m (deepcopyConfig st.config) f = .ok merged →
      update_config m st f = ({ st with config := merged }, .ok ())) := by
  refine ⟨deepcopyConfig_eq st.config, ?_, ?_⟩
  · intro e he
    simp only [update_config, he]
  · intro merged hm
    simp only [update_config, hm]

/-- C1 witness: at a concrete state and fragment, a raising merge leaves
the state untouched and a succeeding merge installs the merged copy. -/
theorem update_config_atomic_witness :
    update_config mergeFailW stW fragW = (stW, .error "merge failed") ∧
    update_config mergeConcatW stW fragW =
      ({ stW with config := cfgW ++ fragW }, .ok ()) :=
  ⟨(update_config_atomic mergeFailW stW fragW).2.1 "merge failed" rfl,
   (update_config_atomic mergeConcatW stW fragW).2.2 (cfgW ++ fragW) rfl⟩

/-- C2 counterexample: a flag-table entry whose patch is a dict but not a
mapping of mappings and whose help text is empty violates the claim's
invariant, yet `Application.__init__` accepts it: construction succeeds and
raises nothing, contradicting the claim that any violation raises
`ConfigError` during construction. -/
theorem flags_validation_weaker_than_spec :
    (app_init appClassW stBadFlags).isOk = true ∧
    specFlagEntryValid badFlagEntry = false :=
  ⟨rfl, rfl⟩

/-- C2 amended: at construction every flags entry is checked to be a
length-2 tuple whose first element is a dict or `Config` and whose second
element is text; any violation raises (an `AssertionError`, not a
`ConfigError`) during construction, before any CLI parsing; neither the
mapping-of-mappings shape of the patch nor non-emptiness of the help text
is checked. -/
theorem flags_validated_at_construction :
    (∀ (myClass : ClassSpec) (st : AppState), app_init myClass st =
      if checkFlags st.flags then
        .ok (init_logging { st with classes := myClass :: st.classes })
      else .error "AssertionError") ∧
    (∀ v, checkFlagEntry v = true ↔
      ∃ a b, v = PyVal.pyTuple [a, b] ∧
        a.isMapping = true ∧ b.isText = true) := by
  constructor
  · intro myClass st
    rfl
  · intro v
    cases v with
    | pyInt n => simp [checkFlagEntry]
    | pyStr s => simp [checkFlagEntry]
    | pyBool b => simp [checkFlagEntry]
    | pyDict e => simp [checkFlagEntry]
    | pyTuple items =>
        match items with
        | [] => simp [checkFlagEntry]
        | [a] => simp [checkFlagEntry]
        | a :: b :: c :: rest => simp [checkFlagEntry]
        | [a, b] =>
            simp only [checkFlagEntry, Bool.and_eq_true]
            constructor
            · intro h
              exact ⟨a, b, rfl, h.1, h.2⟩
            · rintro ⟨a2, b2, heq, h1, h2⟩
              have h3 : a = a2 ∧ b = b2 := by
                simpa using heq
              obtain ⟨rfl, rfl⟩ := h3
              exact ⟨h1, h2⟩

/-- C2 amended witness: the validation accepts a well-formed concrete entry
and `__init__` succeeds on a concrete state carrying it. -/
theorem flags_validated_at_construction_witness :
    app_init appClassW stBadFlags =
      .ok (init_logging { stBadFlags with classes := [appClassW] }) ∧
    checkFlagEntry badFlagEntry = true :=
  ⟨by
    rw [flags_validated_at_construction.1 appClassW stBadFlags]
    rfl,
   (flags_validated_at_construction.2 badFlagEntry).mpr
     ⟨.pyDict [("a", .pyInt 1)], .pyStr "", rfl, rfl, rfl⟩⟩

/-- C3: a token list containing a help token makes `parse_command_line`
print the description and the help and exit with status 0, with no loader
constructed and no `update_config` call. -/
theorem help_short_circuits (argv : List String)
    (h : (argv.contains "-h" || argv.contains "--help" ||
          argv.contains "--help-all") = true) :
    parse_command_line argv =
      [Event.printDescriptionEv, Event.printHelpEv (argv.contains "--help-all"),
       Event.exitEv 0] ∧
    Event.loadConfigEv ∉ parse_command_line argv ∧
    Event.updateConfigEv ∉ parse_command_line argv := by
  have htrace : parse_command_line argv =
      [Event.printDescriptionEv, Event.printHelpEv (argv.contains "--help-all"),
       Event.exitEv 0] := by
    unfold parse_command_line
    rw [if_pos h]
  refine ⟨htrace, ?_, ?_⟩ <;> rw [htrace] <;> simp

/-- C3 witness: the concrete token list `["-h"]`. -/
theorem help_short_circuits_witness :
    parse_command_line ["-h"] =
      [Event.printDescriptionEv,
       Event.printHelpEv ((["-h"] : List String).contains "--help-all"),
       Event.exitEv 0] ∧
    Event.loadConfigEv ∉ parse_command_line ["-h"] ∧
    Event.updateConfigEv ∉ parse_command_line ["-h"] :=
  help_short_circuits ["-h"] (by decide)

/-- C8: a token list containing `--version` and no help token makes
`parse_command_line` print the version and exit with status 0, with no
loader constructed and no `update_config` call. -/
theorem version_short_circuits (argv : List String)
    (hv : argv.contains "--version" = true)
    (h1 : argv.contains "-h" = false)
    (h2 : argv.contains "--help" = false)
    (h3 : argv.contains "--help-all" = false) :
    parse_command_line argv = [Event.printVersionEv, Event.exitEv 0] ∧
    Event.loadConfigEv ∉ parse_command_line argv ∧
    Event.updateConfigEv ∉ parse_command_line argv := by
  have hneg : ¬ ((argv.contains "-h" || argv.contains "--help" ||
      argv.contains "--help-all") = true) := by
    simp only [Bool.or_eq_true, h1, h2, h3, or_self, not_false_eq_true,
      Bool.false_eq_true]
  have htrace : parse_command_line argv =
      [Event.printVersionEv, Event.exitEv 0] := by
    unfold parse_command_line
    rw [if_neg hneg, if_pos hv]
  refine ⟨htrace, ?_, ?_⟩ <;> rw [htrace] <;> simp

/-- C8 witness: the concrete token list `["--version"]`. -/
theorem version_short_circuits_witness :
    parse_command_line ["--version"] = [Event.printVersionEv, Event.exitEv 0] ∧
    Event.loadConfigEv ∉ parse_command_line ["--version"] ∧
    Event.updateConfigEv ∉ parse_command_line ["--version"] :=
  version_short_circuits ["--version"] (by decide) (by decide) (by decide)
    (by decide)

/-- C10: when a token list contains both a help token and `--version`, the
help branch runs and exits first, and the version string is never
printed. -/
theorem help_wins_over_version (argv : List String)
    (hh : (argv.contains "-h" || argv.contains "--help" ||
           argv.contains "--help-all") = true)
    (_hv : argv.contains "--version" = true) :
    parse_command_line argv =
      [Event.printDescriptionEv, Event.printHelpEv (argv.contains "--help-all"),
       Event.exitEv 0] ∧
    Event.printVersionEv ∉ parse_command_line argv := by
  have htrace : parse_command_line argv =
      [Event.printDescriptionEv, Event.printHelpEv (argv.contains "--help-all"),
       Event.exitEv 0] := by
    unfold parse_command_line
    rw [if_pos hh]
  refine ⟨htrace, ?_⟩
  rw [htrace]
  simp

/-- C10 witness: the concrete token list `["-h", "--version"]`. -/
theorem help_wins_over_version_witness :
    parse_command_line ["-h", "--version"] =
      [Event.printDescriptionEv,
       Event.printHelpEv ((["-h", "--version"] : List String).contains "--help-all"),
       Event.exitEv 0] ∧
    Event.printVersionEv ∉ parse_command_line ["-h", "--version"] :=
  help_wins_over_version ["-h", "--version"] (by decide) (by decide)

/-- C4 counterexample: an alias table entry naming a component absent from
`self.classes` is accepted when supplied — construction succeeds with no
validation of the alias table — and the failure only surfaces later, as a
`KeyError` when `print_alias_help` dereferences the alias during help
rendering.  This contradicts the claim that resolution fails at validation
time rather than at lookup time. -/
theorem alias_not_validated_at_construction :
    (app_init appClassW stBadAlias).isOk = true ∧
    print_alias_help [appClassW] [("foo", "Missing.trait")] =
      .error "KeyError: Missing" :=
  ⟨rfl, rfl⟩

/-- C4 amended: the alias table is never validated when supplied —
construction ignores it entirely — and an alias value resolves during help
rendering exactly when it dereferences to an exposed class and a
`config=True` trait on it; otherwise `print_alias_help` raises at lookup
time. -/
theorem alias_errors_at_lookup_time :
    (∀ (myClass : ClassSpec) (st : AppState) (al : List (String × String)),
      (app_init myClass { st with aliases := al }).isOk =
        (app_init myClass st).isOk) ∧
    (∀ (classes : List ClassSpec) (aliases : List (String × String)),
      print_alias_help classes aliases = .ok () ↔
        ∀ p ∈ aliases, aliasDeref classes p.2 = .ok ()) := by
  constructor
  · intro myClass st al
    cases h : checkFlags st.flags <;>
      simp [app_init, h, Except.isOk, Except.toBool]
  · intro classes aliases
    induction aliases with
    | nil => simp [print_alias_help]
    | cons hd rest ih =>
        obtain ⟨a, longname⟩ := hd
        cases hd2 : aliasDeref classes longname with
        | error e =>
            simp [print_alias_help, hd2]
        | ok u =>
            cases u
            simp [print_alias_help, hd2, ih]

/-- C4 amended witness: a concrete resolvable alias table passes the
lookup, and construction succeeds with a concrete bad alias table exactly
as with an empty one. -/
theorem alias_errors_at_lookup_time_witness :
    (app_init appClassW
        { emptyState with aliases := [("foo", "Missing.trait")] }).isOk =
      (app_init appClassW emptyState).isOk ∧
    print_alias_help [appClassW] [("log-level", "Application.log_level")] =
      .ok () :=
  ⟨alias_errors_at_lookup_time.1 appClassW emptyState [("foo", "Missing.trait")],
   (alias_errors_at_lookup_time.2 [appClassW]
      [("log-level", "Application.log_level")]).mpr
     (by
       intro p hp
       simp only [List.mem_singleton] at hp
       subst hp
       rfl)⟩

/-- C5: `boolean_flag(n, "C.t")` returns a dict with exactly the two
distinct keys `n` and `"no-" + n`; the first maps to a patch setting `C.t`
to `True`, the second to a patch setting `C.t` to `False`, each paired with
a non-empty help string that defaults to `set C.t=True` / `set C.t=False`
when none is supplied. -/
theorem boolean_flag_pair (name conf sh uh c t : String)
    (h : pySplit dotChar conf = [c, t]) :
    boolean_flag name conf sh uh =
      .ok [(name, ([(c, [(t, CVal.vBool true)])],
              if sh = "" then "set " ++ conf ++ "=True" else sh)),
           ("no-" ++ name, ([(c, [(t, CVal.vBool false)])],
              if uh = "" then "set " ++ conf ++ "=False" else uh))] ∧
    "no-" ++ name ≠ name ∧
    (if sh = "" then "set " ++ conf ++ "=True" else sh) ≠ "" ∧
    (if uh = "" then "set " ++ conf ++ "=False" else uh) ≠ "" := by
  refine ⟨?_, ?_, ?_, ?_⟩
  · simp only [boolean_flag, h]
  · intro heq
    have h2 := congrArg String.length heq
    rw [String.length_append] at h2
    have h3 : String.length "no-" = 3 := by decide
    omega
  · by_cases hsh : sh = ""
    · rw [if_pos hsh]
      intro heq
      have h2 := congrArg String.length heq
      rw [String.length_append, String.length_append] at h2
      have h3 : String.length "set " = 4 := by decide
      have h4 : String.length "" = 0 := by decide
      omega
    · rw [if_neg hsh]
      exact hsh
  · by_cases huh : uh = ""
    · rw [if_pos huh]
      intro heq
      have h2 := congrArg String.length heq
      rw [String.length_append, String.length_append] at h2
      have h3 : String.length "set " = 4 := by decide
      have h4 : String.length "" = 0 := by decide
      omega
    · rw [if_neg huh]
      exact huh

/-- C5 witness: the concrete call `boolean_flag("debug", "App.debug")`
with no help strings supplied. -/
theorem boolean_flag_pair_witness :
    boolean_flag "debug" "App.debug" "" "" =
      .ok [("debug", ([("App", [("debug", CVal.vBool true)])],
              "set App.debug=True")),
           ("no-debug", ([("App", [("debug", CVal.vBool false)])],
              "set App.debug=False"))] ∧
    "no-debug" ≠ "debug" :=
  ⟨(boolean_flag_pair "debug" "App.debug" "" "" "App" "debug" (by decide)).1,
   (boolean_flag_pair "debug" "App.debug" "" "" "App" "debug" (by decide)).2.1⟩

/-- C6: when the `log_level` trait is assigned a new admissible value `L`
different from the current one, the change notification runs the
`_log_level_changed` handler synchronously and exactly once, leaving the
active logger threshold at `L`. -/
theorem log_level_notify_updates_logger (st : AppState) (L : Int)
    (hmem : L ∈ logLevelValues) (hne : L ≠ st.log_level) :
    set_log_level st L =
      .ok ({ st with log_level := L, loggerLevel := L }, 1) := by
  simp only [set_log_level, validateLogLevel, if_pos hmem]
  rw [if_neg hne]
  rfl

/-- C6 witness: assigning `log_level = 10` from the default state. -/
theorem log_level_notify_updates_logger_witness :
    set_log_level stLogW 10 =
      .ok ({ stLogW with log_level := 10, loggerLevel := 10 }, 1) :=
  log_level_notify_updates_logger stLogW 10 (by decide) (by decide)

/-- C7: whenever `Application.__init__` completes, the application's own
class sits at index 0 of `self.classes`, whatever the list held before. -/
theorem self_class_registered_first (myClass : ClassSpec) (st st2 : AppState)
    (h : app_init myClass st = .ok st2) :
    st2.classes.head? = some myClass := by
  simp only [app_init] at h
  split at h
  · simp only [Except.ok.injEq] at h
    subst h
    rfl
  · simp at h

/-- C7 witness: constructing from the default state registers the
application class first. -/
theorem self_class_registered_first_witness :
    stInitW.classes.head? = some appClassW :=
  self_class_registered_first appClassW emptyState stInitW rfl

/-- C9: the `log_level` trait admits exactly the six values
0, 10, 20, 30, 40, 50; its declared default is 30, which is
`logging.WARN`; `init_logging` sets the logger threshold to the current
`log_level`; and assignment through validation keeps `log_level` inside the
admitted set. -/
theorem log_level_domain :
    (∀ v : Int, (validateLogLevel v).isOk = true ↔ v ∈ logLevelValues) ∧
    logLevelValues = [0, 10, 20, 30, 40, 50] ∧
    log_level_default = 30 ∧
    log_level_default = loggingWARN ∧
    (∀ st : AppState, (init_logging st).loggerLevel = st.log_level) ∧
    (∀ (st : AppState) (v : Int) (st2 : AppState) (k : Nat),
      st.log_level ∈ logLevelValues →
      set_log_level st v = .ok (st2, k) →
      st2.log_level ∈ logLevelValues) := by
  refine ⟨?_, rfl, rfl, rfl, fun st => rfl, ?_⟩
  · intro v
    unfold validateLogLevel
    by_cases h : v ∈ logLevelValues <;>
      simp [h, Except.isOk, Except.toBool]
  · intro st v st2 k hmem h
    unfold set_log_level validateLogLevel at h
    by_cases hv : v ∈ logLevelValues
    · rw [if_pos hv] at h
      simp only at h
      by_cases he : v = st.log_level
      · rw [if_pos he] at h
        simp only [Except.ok.injEq, Prod.mk.injEq] at h
        rw [← h.1]
        exact hmem
      · rw [if_neg he] at h
        simp only [Except.ok.injEq, Prod.mk.injEq] at h
        rw [← h.1]
        simpa [log_level_changed] using hv
    · rw [if_neg hv] at h
      simp at h

/-- C9 witness: validation accepts 20; a concrete validated assignment from
the default lands inside the admitted set. -/
theorem log_level_domain_witness :
    (validateLogLevel 20).isOk = true ∧
    stAfterW.log_level ∈ logLevelValues :=
  ⟨(log_level_domain.1 20).mpr (by decide),
   log_level_domain.2.2.2.2.2 stLogW 10 stAfterW 1 (by decide) rfl⟩

end Traitlets
